import Mathlib

/-!
Shallow embedding of the `useFinanceiro` hook (financial reconciliation module)
of GestorTechPlay.

Modelling conventions:
* Machine floats produced by `parseFloat` are modelled as `ℚ`; the money strings
  involved carry at most cents, and no claim depends on float rounding.
* Display timestamps are modelled as broken-down `DataHora` values: the exact
  information content of the pt-BR locale string `dd/mm/aaaa, HH:mm:ss` that
  `toLocaleString` produces (second granularity) and the code stores in `data`.
  The sort key `new Date(data).getTime()` re-parses that string; mainstream
  engines read its first two fields in US month/day order, so the key swaps
  day and month when the day is at most 12 and is NaN (Invalid Date) when the
  day exceeds 12 — modelled by `dateParseBR`, with the comparator `jsCompare`
  treating a NaN result as 0 as ES2023 SortCompare prescribes.
* Supabase calls are modelled by passing their results in explicitly: a read is
  an `Except String` carrying either rows or an error, a write result is an
  `Option SupaError` (`none` = success, mirroring the `{ error }` shape).
* JavaScript `Array.prototype.sort` is stable (ES2019); it is modelled by a
  stable insertion sort on the `jsCompare` comparator.  When every re-parse is
  valid the comparator is consistent and this is the ES-specified result; with
  NaN keys the standard leaves the order implementation-defined and the model
  fixes the stable insertion resolution.
-/

/-- A broken-down date-time at second granularity: the information content of
the pt-BR locale string `dd/mm/aaaa, HH:mm:ss` that `toLocaleString` produces
and that the code stores as an entry's display timestamp. -/
structure DataHora where
  ano : Nat
  mes : Nat
  dia : Nat
  hora : Nat
  minuto : Nat
  segundo : Nat
  deriving Repr, DecidableEq

/-- A customer row (`Cliente`): id, display name, optional plan reference,
optional product reference, optional creation timestamp.  The optional string
references model the JS truthiness test `cliente.plano && …`: `none` or the
empty string fail the test. -/
structure Cliente where
  id : String
  nome : String
  plano : Option String
  produto : Option String
  created_at : Option DataHora
  deriving Repr, DecidableEq

/-- A plan row (`Plano`): id, display name, locale-formatted price string. -/
structure Plano where
  id : String
  nome : String
  valor : String
  deriving Repr, DecidableEq

/-- A product row (`Produto`): id, display name, locale-formatted price string. -/
structure Produto where
  id : String
  nome : String
  valor : String
  deriving Repr, DecidableEq

/-- A persisted custom-transaction row from the `transacoes` relation.  The
rows are dynamically typed in the source (`any`), so `tipo` is an arbitrary
string and `valor` is the string `parseFloat` receives. -/
structure TransacaoRow where
  id : String
  valor : String
  tipo : String
  descricao : String
  created_at : DataHora
  deriving Repr, DecidableEq

/-- An in-memory ledger entry (`TransacaoFinanceira`). -/
structure TransacaoFinanceira where
  id : String
  cliente : String
  tipo : String
  valor : ℚ
  data : DataHora
  detalheTitulo : String
  detalheValor : String
  isCustom : Bool
  descricao : Option String
  deriving Repr, DecidableEq

/-- The hook state (`dados`): totals, ledger list, loading flag, error slot. -/
structure Dados where
  entradas : ℚ
  saidas : ℚ
  lucros : ℚ
  transacoes : List TransacaoFinanceira
  loading : Bool
  error : Option String
  deriving Repr, DecidableEq

/-! ### MoneyParser -/

/-- The characters removed by `replace(/[R$\s]/g, '')`: the letter `R`, the
dollar sign, and whitespace. -/
def isStrippedChar (c : Char) : Bool :=
  c = 'R' || c = '$' || c = ' ' || c = '\t' || c = '\n' || c = '\r'

/-- JS `replace(',', '.')` with a string argument replaces only the first comma. -/
def replaceFirstComma : List Char → List Char
  | [] => []
  | c :: rest => if c = ',' then '.' :: rest else c :: replaceFirstComma rest

/-- Longest digit run at the front of the character list. -/
def takeDigits : List Char → List Char × List Char
  | [] => ([], [])
  | c :: rest =>
    if c.isDigit then
      let (ds, tl) := takeDigits rest
      (c :: ds, tl)
    else ([], c :: rest)

/-- Numeric value of a digit run. -/
def digitsToNat (ds : List Char) : Nat :=
  ds.foldl (fun n c => 10 * n + (c.toNat - 48)) 0

/-- Model of JavaScript `parseFloat` restricted to sign/integer/fraction
syntax (no exponents occur in money strings): parse an optional sign, a digit
run, an optional point followed by a digit run; trailing garbage is ignored,
and the result is `none` (NaN) when no digit was read. -/
def parseFloatQ (s : List Char) : Option ℚ :=
  let (sign, cs) : ℚ × List Char :=
    match s with
    | '-' :: rest => (-1, rest)
    | '+' :: rest => (1, rest)
    | _ => (1, s)
  let (intPart, cs2) := takeDigits cs
  let fracPart : List Char :=
    match cs2 with
    | '.' :: rest => (takeDigits rest).1
    | _ => []
  if intPart = [] ∧ fracPart = [] then none
  else
    some (sign * ((digitsToNat intPart : ℚ) +
      (digitsToNat fracPart : ℚ) / ((10 : ℚ) ^ fracPart.length)))

/-- MoneyParser: `valor.replace(/[R$\s]/g, '').replace(',', '.')` then
`parseFloat`, with NaN modelled as `none`. -/
def parseMoney (s : String) : Option ℚ :=
  parseFloatQ (replaceFirstComma (s.data.filter (fun c => !isStrippedChar c)))

/-! ### Description splitting (CustomTransactionBuilder) -/

/-- JS `split('\n')` on the character list: always returns at least one
(possibly empty) segment. -/
def splitLinesAux : List Char → List Char → List (List Char)
  | [], cur => [cur.reverse]
  | c :: rest, cur =>
    if c = '\n' then cur.reverse :: splitLinesAux rest []
    else splitLinesAux rest (c :: cur)

def splitLines (s : String) : List (List Char) :=
  splitLinesAux s.data []

/-- JS `array.join(' ')`. -/
def joinSpace : List (List Char) → List Char
  | [] => []
  | [l] => l
  | l :: ls => l ++ ' ' :: joinSpace ls

/-- Split a description: first line is the counterparty label (default
`"Transação customizada"` when falsy, i.e. empty), the remaining lines joined
with spaces are the detail (default `"Sem detalhes"` when empty). -/
def splitDescricao (d : String) : String × String :=
  let linhas := splitLines d
  let primeira : List Char := linhas.headD []
  let cliente := if primeira.isEmpty then "Transação customizada" else String.mk primeira
  let resto := joinSpace (linhas.drop 1)
  let detalhe := if resto.isEmpty then "Sem detalhes" else String.mk resto
  (cliente, detalhe)

/-! ### Lookup maps -/

/-- Model of `new Map(rows.map(r => [r.id, r]))` followed by `.get(k)`: with duplicate
keys the later row wins, so look from the back. -/
def mapGet {α : Type} (key : α → String) (l : List α) (k : String) : Option α :=
  l.reverse.find? (fun x => key x = k)

/-- JS truthiness of an optional string reference. -/
def truthyRef : Option String → Option String
  | none => none
  | some s => if s = "" then none else some s

/-! ### DerivedTransactionBuilder -/

/-- The inflow entry derived from a customer and its plan, when the reference
resolves and the price parses; `none` otherwise. -/
def clientePlanoEntry (planos : List Plano) (now : DataHora) (c : Cliente) :
    Option (TransacaoFinanceira × ℚ) :=
  match truthyRef c.plano with
  | none => none
  | some pid =>
    match mapGet Plano.id planos pid with
    | none => none
    | some p =>
      match parseMoney p.valor with
      | none => none
      | some v =>
        some ({ id := "entrada-" ++ c.id, cliente := c.nome, tipo := "entrada",
                valor := v, data := c.created_at.getD now,
                detalheTitulo := "Plano", detalheValor := p.nome,
                isCustom := false, descricao := none }, v)

/-- The outflow entry derived from a customer and its product, when the
reference resolves and the price parses; `none` otherwise. -/
def clienteProdutoEntry (produtos : List Produto) (now : DataHora) (c : Cliente) :
    Option (TransacaoFinanceira × ℚ) :=
  match truthyRef c.produto with
  | none => none
  | some pid =>
    match mapGet Produto.id produtos pid with
    | none => none
    | some p =>
      match parseMoney p.valor with
      | none => none
      | some v =>
        some ({ id := "saida-" ++ c.id, cliente := c.nome, tipo := "saida",
                valor := v, data := c.created_at.getD now,
                detalheTitulo := "Produto", detalheValor := p.nome,
                isCustom := false, descricao := none }, v)

/-- Running totals and entry list accumulated during a load. -/
structure Totais where
  entradas : ℚ
  saidas : ℚ
  transacoes : List TransacaoFinanceira
  deriving Repr, DecidableEq

/-- Plan half of the per-customer loop body. -/
def applyPlano (planos : List Plano) (now : DataHora) (acc : Totais) (c : Cliente) : Totais :=
  match clientePlanoEntry planos now c with
  | none => acc
  | some (e, v) =>
    { acc with entradas := acc.entradas + v, transacoes := acc.transacoes ++ [e] }

/-- Product half of the per-customer loop body. -/
def applyProduto (produtos : List Produto) (now : DataHora) (acc : Totais) (c : Cliente) : Totais :=
  match clienteProdutoEntry produtos now c with
  | none => acc
  | some (e, v) =>
    { acc with saidas := acc.saidas + v, transacoes := acc.transacoes ++ [e] }

/-- Loop body of `clientes.forEach`. -/
def stepCliente (planos : List Plano) (produtos : List Produto) (now : DataHora)
    (acc : Totais) (c : Cliente) : Totais :=
  applyProduto produtos now (applyPlano planos now acc c) c

/-! ### CustomTransactionBuilder -/

/-- The ledger entry built from a custom row whose amount parsed to `v`:
counterparty and detail come from the description split, the raw `tipo` and the
original description are kept on the entry. -/
def mkCustomEntry (t : TransacaoRow) (v : ℚ) : TransacaoFinanceira :=
  { id := t.id, cliente := (splitDescricao t.descricao).1, tipo := t.tipo,
    valor := v, data := t.created_at, detalheTitulo := "Customizada",
    detalheValor := (splitDescricao t.descricao).2, isCustom := true,
    descricao := some t.descricao }

/-- Loop body of `transacoesCustomizadas.forEach`: parse the amount; on NaN the
row is dropped; otherwise `tipo === 'entrada'` adds to inflow and any other
`tipo` value adds to outflow, and an entry is appended carrying the raw `tipo`
and the original description. -/
def stepCustom (acc : Totais) (t : TransacaoRow) : Totais :=
  match parseFloatQ t.valor.data with
  | none => acc
  | some v =>
    let acc2 :=
      if t.tipo = "entrada" then { acc with entradas := acc.entradas + v }
      else { acc with saidas := acc.saidas + v }
    { acc2 with transacoes := acc2.transacoes ++ [mkCustomEntry t v] }

/-! ### LedgerAggregator: the sort the code actually performs -/

/-- Chronological key of a display timestamp: lexicographic on year, month,
day, hour, minute, second — order-isomorphic to the epoch time of the
displayed fields for in-range dates. -/
def chaveCronologica (d : DataHora) : Nat :=
  ((((d.ano * 13 + d.mes) * 32 + d.dia) * 24 + d.hora) * 60 + d.minuto) * 60 + d.segundo

/-- Model of `new Date(s).getTime()` applied to the pt-BR locale string
`dd/mm/aaaa, HH:mm:ss`, as mainstream engines parse it: the first two fields
are read in US month/day order, so day and month are swapped when the day is
at most 12, and the result is NaN (`none`, Invalid Date) when the day exceeds
12. -/
def dateParseBR (d : DataHora) : Option Nat :=
  if d.dia ≤ 12 then
    some (chaveCronologica ⟨d.ano, d.dia, d.mes, d.hora, d.minuto, d.segundo⟩)
  else none

/-- The comparator `(a, b) => new Date(b.data).getTime() - new Date(a.data).getTime()`,
with a NaN result treated as 0 as ES2023 SortCompare prescribes. -/
def jsCompare (a b : TransacaoFinanceira) : Int :=
  match dateParseBR b.data, dateParseBR a.data with
  | some tb, some ta => (tb : Int) - (ta : Int)
  | _, _ => 0

/-- Stable insertion step of the comparator sort: the entry goes before the
first element it does not compare after, so elements comparing equal keep
their original relative order. -/
def insertByData (e : TransacaoFinanceira) : List TransacaoFinanceira → List TransacaoFinanceira
  | [] => [e]
  | x :: xs => if jsCompare e x ≤ 0 then e :: x :: xs else x :: insertByData e xs

/-- The ES2019 stable `transacoes.sort((a, b) => …)` under `jsCompare`.  For
inputs whose re-parses are all valid the comparator is consistent and this is
the ES-specified result; with NaN keys the standard leaves the order
implementation-defined and this model fixes the stable insertion resolution. -/
def sortByDataDesc : List TransacaoFinanceira → List TransacaoFinanceira
  | [] => []
  | x :: xs => insertByData x (sortByDataDesc xs)

/-- The full ledger computation of a successful load: fold the customers, then
the custom rows, then sort. -/
def computeLedger (clientes : List Cliente) (planos : List Plano)
    (produtos : List Produto) (trs : List TransacaoRow) (now : DataHora) : Totais :=
  let acc := clientes.foldl (stepCliente planos produtos now) ⟨0, 0, []⟩
  let acc2 := trs.foldl stepCustom acc
  { acc2 with transacoes := sortByDataDesc acc2.transacoes }

/-- The load `carregarDadosFinanceiros`, as a state transition on `Dados`.  The three
source reads either all succeed or the whole load lands in the catch branch
with the generic localized message; the custom-transaction read result is
replaced by `[]` on failure (`transacoesRes.data || []` under the fallback
initial value). -/
def carregarDadosFinanceiros (prev : Dados)
    (clientesRes : Except String (List Cliente))
    (planosRes : Except String (List Plano))
    (produtosRes : Except String (List Produto))
    (transacoesRes : Except String (List TransacaoRow)) (now : DataHora) : Dados :=
  match clientesRes, planosRes, produtosRes with
  | Except.ok clientes, Except.ok planos, Except.ok produtos =>
    let trs := match transacoesRes with
      | Except.ok l => l
      | Except.error _ => []
    let acc := computeLedger clientes planos produtos trs now
    { entradas := acc.entradas, saidas := acc.saidas,
      lucros := acc.entradas - acc.saidas, transacoes := acc.transacoes,
      loading := false, error := none }
  | _, _, _ =>
    { prev with loading := false, error := some "Erro ao carregar dados financeiros" }

/-! ### SelfHealingWriter and the other write operations -/

/-- A supabase error object as returned in `{ error }`: machine-readable code
plus message. -/
structure SupaError where
  code : String
  message : String
  deriving Repr, DecidableEq

/-- A value thrown by the write operations: either a store error object
re-thrown as is, or a `new Error(message)`. -/
inductive JSError where
  | supa (e : SupaError)
  | err (message : String)
  deriving Repr, DecidableEq

/-- The store interactions one call of `salvarTransacao` can perform, passed
in as an oracle: result of the first insert, of the provisioning invocation,
and of the retried insert (`none` = the `{ error }` slot was null). -/
structure SalvarEnv where
  firstInsert : Option SupaError
  provision : Option SupaError
  retryInsert : Option SupaError
  deriving Repr, DecidableEq

/-- Observable outcome of one `salvarTransacao` call: the returned/thrown
result plus how often each effect ran. -/
structure SalvarResult where
  result : Except JSError Unit
  provisionCalls : Nat
  insertAttempts : Nat
  reloads : Nat
  deriving Repr

/-- The create path `salvarTransacao`: insert; on error code `PGRST205` provision the relation
and retry once inside an inner try whose catch replaces any failure with the
generic `Contacte o suporte` Error; any other insert error is thrown as is; a
reload runs only when no throw happened. -/
def salvarTransacao (userId : Option String) (env : SalvarEnv) : SalvarResult :=
  match userId with
  | none => ⟨Except.error (JSError.err "Usuário não autenticado"), 0, 0, 0⟩
  | some _ =>
    match env.firstInsert with
    | none => ⟨Except.ok (), 0, 1, 1⟩
    | some e =>
      if e.code = "PGRST205" then
        match env.provision with
        | some _ =>
          ⟨Except.error (JSError.err "A tabela de transações não existe e não foi possível criá-la automaticamente. Contacte o suporte."), 1, 1, 0⟩
        | none =>
          match env.retryInsert with
          | none => ⟨Except.ok (), 1, 2, 1⟩
          | some _ =>
            ⟨Except.error (JSError.err "A tabela de transações não existe e não foi possível criá-la automaticamente. Contacte o suporte."), 1, 2, 0⟩
      else ⟨Except.error (JSError.supa e), 0, 1, 0⟩

/-- Outcome of an edit or delete call: result plus reload count. -/
structure MutResult where
  result : Except JSError Unit
  reloads : Nat
  deriving Repr

/-- The edit path `editarTransacao`: one update-by-id against `transacoes`; on `{ error }`
throw it, otherwise reload. -/
def editarTransacao (updateError : Option SupaError) : MutResult :=
  match updateError with
  | none => ⟨Except.ok (), 1⟩
  | some e => ⟨Except.error (JSError.supa e), 0⟩

/-- The delete path `excluirTransacao`: one delete-by-id against `transacoes`; on `{ error }`
throw it, otherwise reload. -/
def excluirTransacao (deleteError : Option SupaError) : MutResult :=
  match deleteError with
  | none => ⟨Except.ok (), 1⟩
  | some e => ⟨Except.error (JSError.supa e), 0⟩

/-! ### Characterizations of the entry sequences and the stable sort -/

/-- The entries an optional builder result contributes. -/
def optEntry : Option (TransacaoFinanceira × ℚ) → List TransacaoFinanceira
  | none => []
  | some ev => [ev.1]

/-- The derived-entry sequence: per customer, in customer order, the plan
entry (if any) then the product entry (if any). -/
def derivedEntries (planos : List Plano) (produtos : List Produto) (now : DataHora) :
    List Cliente → List TransacaoFinanceira
  | [] => []
  | c :: cs =>
    optEntry (clientePlanoEntry planos now c) ++
    optEntry (clienteProdutoEntry produtos now c) ++
    derivedEntries planos produtos now cs

/-- The custom-entry sequence: rows in store order, unparseable amounts
dropped. -/
def customEntries (ts : List TransacaoRow) : List TransacaoFinanceira :=
  ts.filterMap (fun t => (parseFloatQ t.valor.data).map (mkCustomEntry t))

theorem applyPlano_transacoes (planos : List Plano) (now : DataHora) (acc : Totais) (c : Cliente) :
    (applyPlano planos now acc c).transacoes =
      acc.transacoes ++ optEntry (clientePlanoEntry planos now c) := by
  unfold applyPlano
  cases clientePlanoEntry planos now c with
  | none => simp [optEntry]
  | some ev => cases ev with | mk e v => simp [optEntry]

theorem applyProduto_transacoes (produtos : List Produto) (now : DataHora) (acc : Totais) (c : Cliente) :
    (applyProduto produtos now acc c).transacoes =
      acc.transacoes ++ optEntry (clienteProdutoEntry produtos now c) := by
  unfold applyProduto
  cases clienteProdutoEntry produtos now c with
  | none => simp [optEntry]
  | some ev => cases ev with | mk e v => simp [optEntry]

theorem applyProduto_saidas_produtos (produtos : List Produto) (now : DataHora) (acc : Totais) (c : Cliente) :
    (applyProduto produtos now acc c).entradas = acc.entradas := by
  unfold applyProduto
  cases clienteProdutoEntry produtos now c with
  | none => rfl
  | some ev => cases ev with | mk e v => rfl

theorem stepCliente_transacoes (planos : List Plano) (produtos : List Produto)
    (now : DataHora) (acc : Totais) (c : Cliente) :
    (stepCliente planos produtos now acc c).transacoes =
      acc.transacoes ++ optEntry (clientePlanoEntry planos now c) ++
        optEntry (clienteProdutoEntry produtos now c) := by
  unfold stepCliente
  rw [applyProduto_transacoes, applyPlano_transacoes]

theorem foldCliente_transacoes (planos : List Plano) (produtos : List Produto) (now : DataHora) :
    ∀ (cs : List Cliente) (acc : Totais),
      (cs.foldl (stepCliente planos produtos now) acc).transacoes =
        acc.transacoes ++ derivedEntries planos produtos now cs := by
  intro cs
  induction cs with
  | nil => intro acc; simp [derivedEntries]
  | cons c cs ih =>
    intro acc
    simp only [List.foldl_cons, ih, stepCliente_transacoes, derivedEntries,
      List.append_assoc]

theorem stepCustom_transacoes (acc : Totais) (t : TransacaoRow) :
    (stepCustom acc t).transacoes =
      acc.transacoes ++ ((parseFloatQ t.valor.data).map (mkCustomEntry t)).toList := by
  unfold stepCustom
  cases parseFloatQ t.valor.data with
  | none => simp
  | some v =>
    by_cases h : t.tipo = "entrada" <;> simp [h]

theorem foldCustom_transacoes :
    ∀ (ts : List TransacaoRow) (acc : Totais),
      (ts.foldl stepCustom acc).transacoes = acc.transacoes ++ customEntries ts := by
  intro ts
  induction ts with
  | nil => intro acc; simp [customEntries]
  | cons t ts ih =>
    intro acc
    simp only [List.foldl_cons, ih, stepCustom_transacoes, customEntries,
      List.filterMap_cons, List.append_assoc]
    cases parseFloatQ t.valor.data with
    | none => simp
    | some v => simp

theorem insertByData_perm (e : TransacaoFinanceira) (l : List TransacaoFinanceira) :
    (insertByData e l).Perm (e :: l) := by
  induction l with
  | nil => simp [insertByData]
  | cons x xs ih =>
    unfold insertByData
    by_cases h : jsCompare e x ≤ 0
    · simp [h]
    · simp only [h, if_false]
      exact (ih.cons x).trans (List.Perm.swap e x xs)

theorem jsCompare_antisymm (a b : TransacaoFinanceira) :
    jsCompare b a = - jsCompare a b := by
  unfold jsCompare
  cases dateParseBR a.data with
  | none => cases dateParseBR b.data <;> simp
  | some ta =>
    cases dateParseBR b.data with
    | none => simp
    | some tb => simp only []; omega

theorem insertByData_chain (e : TransacaoFinanceira) :
    ∀ l : List TransacaoFinanceira,
      l.Chain' (fun a b => jsCompare a b ≤ 0) →
      (insertByData e l).Chain' (fun a b => jsCompare a b ≤ 0) := by
  intro l
  induction l with
  | nil => intro _; simp [insertByData]
  | cons x xs ih =>
    intro h
    unfold insertByData
    by_cases hex : jsCompare e x ≤ 0
    · simp only [hex, if_true]
      exact List.chain'_cons.mpr ⟨hex, h⟩
    · simp only [hex, if_false]
      have hxe : jsCompare x e ≤ 0 := by
        have ha := jsCompare_antisymm e x
        omega
      cases xs with
      | nil => simp [insertByData, List.chain'_cons, hxe]
      | cons y ys =>
        rcases List.chain'_cons.mp h with ⟨hxy, hyys⟩
        have h2 := ih hyys
        unfold insertByData
        by_cases hey : jsCompare e y ≤ 0
        · simp only [hey, if_true]
          exact List.chain'_cons.mpr ⟨hxe, List.chain'_cons.mpr ⟨hey, hyys⟩⟩
        · simp only [hey, if_false]
          unfold insertByData at h2
          simp only [hey, if_false] at h2
          exact List.chain'_cons.mpr ⟨hxy, h2⟩

theorem sortByDataDesc_perm (l : List TransacaoFinanceira) :
    (sortByDataDesc l).Perm l := by
  induction l with
  | nil => simp [sortByDataDesc]
  | cons x xs ih =>
    unfold sortByDataDesc
    exact (insertByData_perm x (sortByDataDesc xs)).trans (ih.cons x)

theorem sortByDataDesc_chain (l : List TransacaoFinanceira) :
    (sortByDataDesc l).Chain' (fun a b => jsCompare a b ≤ 0) := by
  induction l with
  | nil => simp [sortByDataDesc]
  | cons x xs ih =>
    unfold sortByDataDesc
    exact insertByData_chain x (sortByDataDesc xs) ih

theorem computeLedger_transacoes (cs : List Cliente) (ps : List Plano)
    (prs : List Produto) (trs : List TransacaoRow) (now : DataHora) :
    (computeLedger cs ps prs trs now).transacoes =
      sortByDataDesc (derivedEntries ps prs now cs ++ customEntries trs) := by
  simp [computeLedger, foldCustom_transacoes, foldCliente_transacoes]

/-- C1 (code bug): the load does not return the ledger sorted by descending
display timestamp.  It stably sorts the concatenation of the derived and
custom sequences by the key obtained from re-parsing the pt-BR display string
in US month/day order (`jsCompare`), and on the display timestamps
02/01/2026 12:00:00 and 01/03/2026 12:00:00 — whose re-parses are both valid,
so the comparator is consistent and the ES-specified result applies — the
chronologically earlier display timestamp is returned first, violating
descending display-timestamp order. -/
theorem C1_locale_reparse_breaks_sort :
    (∀ (prev : Dados) (cs : List Cliente) (ps : List Plano) (prs : List Produto)
        (trs : List TransacaoRow) (now : DataHora),
      (carregarDadosFinanceiros prev (Except.ok cs) (Except.ok ps) (Except.ok prs)
          (Except.ok trs) now).transacoes =
        sortByDataDesc (derivedEntries ps prs now cs ++ customEntries trs) ∧
      ((carregarDadosFinanceiros prev (Except.ok cs) (Except.ok ps) (Except.ok prs)
          (Except.ok trs) now).transacoes).Chain' (fun a b => jsCompare a b ≤ 0) ∧
      ((carregarDadosFinanceiros prev (Except.ok cs) (Except.ok ps) (Except.ok prs)
          (Except.ok trs) now).transacoes).Perm
        (derivedEntries ps prs now cs ++ customEntries trs)) ∧
    ((carregarDadosFinanceiros ⟨0, 0, 0, [], true, none⟩ (Except.ok []) (Except.ok [])
        (Except.ok [])
        (Except.ok [⟨"b", "1", "entrada", "y", ⟨2026, 3, 1, 12, 0, 0⟩⟩,
                    ⟨"a", "1", "entrada", "x", ⟨2026, 1, 2, 12, 0, 0⟩⟩])
        ⟨2026, 1, 1, 0, 0, 0⟩).transacoes.map (fun e => e.data)) =
      [⟨2026, 1, 2, 12, 0, 0⟩, ⟨2026, 3, 1, 12, 0, 0⟩] ∧
    chaveCronologica ⟨2026, 1, 2, 12, 0, 0⟩ < chaveCronologica ⟨2026, 3, 1, 12, 0, 0⟩ ∧
    dateParseBR ⟨2026, 1, 2, 12, 0, 0⟩ = some (chaveCronologica ⟨2026, 2, 1, 12, 0, 0⟩) ∧
    dateParseBR ⟨2026, 3, 1, 12, 0, 0⟩ = some (chaveCronologica ⟨2026, 1, 3, 12, 0, 0⟩) := by
  refine ⟨?_, by decide, by decide, by decide, by decide⟩
  intro prev cs ps prs trs now
  have hmain :
      (carregarDadosFinanceiros prev (Except.ok cs) (Except.ok ps) (Except.ok prs)
          (Except.ok trs) now).transacoes =
        sortByDataDesc (derivedEntries ps prs now cs ++ customEntries trs) := by
    show (computeLedger cs ps prs trs now).transacoes = _
    exact computeLedger_transacoes cs ps prs trs now
  refine ⟨hmain, ?_, ?_⟩
  · rw [hmain]; exact sortByDataDesc_chain _
  · rw [hmain]; exact sortByDataDesc_perm _

/-- C5: after every load the reported net profit equals total inflow minus
total outflow, and the successful-load result is independent of the previous
state (totals are recomputed from scratch). -/
theorem C5_net_profit_invariant :
    ∀ (prev prev2 : Dados) (cs : List Cliente) (ps : List Plano) (prs : List Produto)
      (trsRes : Except String (List TransacaoRow)) (now : DataHora),
      (carregarDadosFinanceiros prev (Except.ok cs) (Except.ok ps) (Except.ok prs)
          trsRes now).lucros =
        (carregarDadosFinanceiros prev (Except.ok cs) (Except.ok ps) (Except.ok prs)
            trsRes now).entradas -
          (carregarDadosFinanceiros prev (Except.ok cs) (Except.ok ps) (Except.ok prs)
              trsRes now).saidas ∧
      carregarDadosFinanceiros prev (Except.ok cs) (Except.ok ps) (Except.ok prs)
          trsRes now =
        carregarDadosFinanceiros prev2 (Except.ok cs) (Except.ok ps) (Except.ok prs)
          trsRes now := by
  intro prev prev2 cs ps prs trsRes now
  exact ⟨rfl, rfl⟩

/-- C9: a failing custom-transaction fetch is not fatal: the load behaves
exactly as if the fetch had returned zero rows, and no error is surfaced. -/
theorem C9_custom_fetch_failure_tolerated :
    ∀ (prev : Dados) (cs : List Cliente) (ps : List Plano) (prs : List Produto)
      (e : String) (now : DataHora),
      carregarDadosFinanceiros prev (Except.ok cs) (Except.ok ps) (Except.ok prs)
          (Except.error e) now =
        carregarDadosFinanceiros prev (Except.ok cs) (Except.ok ps) (Except.ok prs)
          (Except.ok []) now ∧
      (carregarDadosFinanceiros prev (Except.ok cs) (Except.ok ps) (Except.ok prs)
          (Except.error e) now).error = none := by
  intro prev cs ps prs e now
  exact ⟨rfl, rfl⟩

/-- Whether an `Except` result is a success. -/
def exceptIsOk {ε α : Type} : Except ε α → Bool
  | Except.ok _ => true
  | Except.error _ => false

/-- C8: if any of the customers, plans or products fetches fails, the load is
fatal: the generic localized message is surfaced, all ledger fields keep their
previous values, and the loading flag is cleared. -/
theorem C8_source_fetch_failure_frame :
    ∀ (prev : Dados) (cRes : Except String (List Cliente))
      (pRes : Except String (List Plano)) (prRes : Except String (List Produto))
      (tRes : Except String (List TransacaoRow)) (now : DataHora),
      (exceptIsOk cRes && exceptIsOk pRes && exceptIsOk prRes) = false →
      (carregarDadosFinanceiros prev cRes pRes prRes tRes now).entradas = prev.entradas ∧
      (carregarDadosFinanceiros prev cRes pRes prRes tRes now).saidas = prev.saidas ∧
      (carregarDadosFinanceiros prev cRes pRes prRes tRes now).lucros = prev.lucros ∧
      (carregarDadosFinanceiros prev cRes pRes prRes tRes now).transacoes = prev.transacoes ∧
      (carregarDadosFinanceiros prev cRes pRes prRes tRes now).loading = false ∧
      (carregarDadosFinanceiros prev cRes pRes prRes tRes now).error =
        some "Erro ao carregar dados financeiros" := by
  intro prev cRes pRes prRes tRes now h
  cases cRes <;> cases pRes <;> cases prRes <;>
    first
      | exact ⟨rfl, rfl, rfl, rfl, rfl, rfl⟩
      | simp [exceptIsOk] at h

/-- Closed witness for C8: a failing customers fetch at a concrete previous
state. -/
theorem C8_source_fetch_failure_frame_witness :
    (carregarDadosFinanceiros ⟨3, 2, 1, [], true, none⟩ (Except.error "boom")
        (Except.ok []) (Except.ok []) (Except.ok []) ⟨2026, 1, 1, 0, 0, 0⟩).entradas =
      (⟨3, 2, 1, [], true, none⟩ : Dados).entradas ∧
    (carregarDadosFinanceiros ⟨3, 2, 1, [], true, none⟩ (Except.error "boom")
        (Except.ok []) (Except.ok []) (Except.ok []) ⟨2026, 1, 1, 0, 0, 0⟩).saidas =
      (⟨3, 2, 1, [], true, none⟩ : Dados).saidas ∧
    (carregarDadosFinanceiros ⟨3, 2, 1, [], true, none⟩ (Except.error "boom")
        (Except.ok []) (Except.ok []) (Except.ok []) ⟨2026, 1, 1, 0, 0, 0⟩).lucros =
      (⟨3, 2, 1, [], true, none⟩ : Dados).lucros ∧
    (carregarDadosFinanceiros ⟨3, 2, 1, [], true, none⟩ (Except.error "boom")
        (Except.ok []) (Except.ok []) (Except.ok []) ⟨2026, 1, 1, 0, 0, 0⟩).transacoes =
      (⟨3, 2, 1, [], true, none⟩ : Dados).transacoes ∧
    (carregarDadosFinanceiros ⟨3, 2, 1, [], true, none⟩ (Except.error "boom")
        (Except.ok []) (Except.ok []) (Except.ok []) ⟨2026, 1, 1, 0, 0, 0⟩).loading = false ∧
    (carregarDadosFinanceiros ⟨3, 2, 1, [], true, none⟩ (Except.error "boom")
        (Except.ok []) (Except.ok []) (Except.ok []) ⟨2026, 1, 1, 0, 0, 0⟩).error =
      some "Erro ao carregar dados financeiros" :=
  C8_source_fetch_failure_frame ⟨3, 2, 1, [], true, none⟩ (Except.error "boom")
    (Except.ok []) (Except.ok []) (Except.ok []) ⟨2026, 1, 1, 0, 0, 0⟩ rfl

/-- C6: a record whose price or amount string fails to parse yields no ledger
entry and contributes 0 to both totals (the loop body leaves the accumulator
unchanged), `"R$ abc"` is such a string, and a successful load surfaces no
error. -/
theorem C6_parse_failure_silently_excluded :
    (∀ (planos : List Plano) (now : DataHora) (c : Cliente) (p : Plano) (pid : String),
      truthyRef c.plano = some pid → mapGet Plano.id planos pid = some p →
      parseMoney p.valor = none →
      ∀ acc : Totais, applyPlano planos now acc c = acc) ∧
    (∀ (produtos : List Produto) (now : DataHora) (c : Cliente) (p : Produto) (pid : String),
      truthyRef c.produto = some pid → mapGet Produto.id produtos pid = some p →
      parseMoney p.valor = none →
      ∀ acc : Totais, applyProduto produtos now acc c = acc) ∧
    (∀ (acc : Totais) (t : TransacaoRow),
      parseFloatQ t.valor.data = none → stepCustom acc t = acc) ∧
    parseMoney "R$ abc" = none ∧
    (∀ (prev : Dados) (cs : List Cliente) (ps : List Plano) (prs : List Produto)
        (trs : List TransacaoRow) (now : DataHora),
      (carregarDadosFinanceiros prev (Except.ok cs) (Except.ok ps) (Except.ok prs)
          (Except.ok trs) now).error = none) := by
  refine ⟨?_, ?_, ?_, by decide, ?_⟩
  · intro planos now c p pid h1 h2 h3 acc
    simp [applyPlano, clientePlanoEntry, h1, h2, h3]
  · intro produtos now c p pid h1 h2 h3 acc
    simp [applyProduto, clienteProdutoEntry, h1, h2, h3]
  · intro acc t h
    simp [stepCustom, h]
  · intro prev cs ps prs trs now
    rfl

/-- Closed witness for C6: a plan priced `"R$ abc"` and a custom row with
amount `"abc"` leave a concrete accumulator untouched. -/
theorem C6_parse_failure_silently_excluded_witness :
    applyPlano [⟨"p1", "Basic", "R$ abc"⟩] ⟨2026, 1, 5, 0, 0, 0⟩ ⟨0, 0, []⟩
        ⟨"c1", "Ana", some "p1", none, none⟩ = ⟨0, 0, []⟩ ∧
    stepCustom ⟨0, 0, []⟩ ⟨"t1", "abc", "entrada", "d", ⟨2026, 1, 7, 0, 0, 0⟩⟩ = ⟨0, 0, []⟩ :=
  ⟨C6_parse_failure_silently_excluded.1 [⟨"p1", "Basic", "R$ abc"⟩] ⟨2026, 1, 5, 0, 0, 0⟩
      ⟨"c1", "Ana", some "p1", none, none⟩ ⟨"p1", "Basic", "R$ abc"⟩ "p1"
      (by decide) (by decide) (by decide) ⟨0, 0, []⟩,
    C6_parse_failure_silently_excluded.2.2.1 ⟨0, 0, []⟩
      ⟨"t1", "abc", "entrada", "d", ⟨2026, 1, 7, 0, 0, 0⟩⟩ (by decide)⟩

theorem splitLinesAux_no_newline :
    ∀ (a cur : List Char), (∀ c ∈ a, c ≠ '\n') →
      splitLinesAux a cur = [cur.reverse ++ a] := by
  intro a
  induction a with
  | nil => intro cur _; simp [splitLinesAux]
  | cons c rest ih =>
    intro cur h
    have hc : ¬ (c = '\n') := h c (List.mem_cons_self c rest)
    simp only [splitLinesAux, hc, if_false]
    rw [ih (c :: cur) (fun d hd => h d (List.mem_cons_of_mem c hd))]
    simp

theorem splitLinesAux_split_at_newline :
    ∀ (a : List Char), (∀ c ∈ a, c ≠ '\n') → ∀ (b cur : List Char),
      splitLinesAux (a ++ '\n' :: b) cur = (cur.reverse ++ a) :: splitLinesAux b [] := by
  intro a
  induction a with
  | nil =>
    intro _ b cur
    simp [splitLinesAux]
  | cons c rest ih =>
    intro h b cur
    have hc : ¬ (c = '\n') := h c (List.mem_cons_self c rest)
    simp only [List.cons_append, splitLinesAux, hc, if_false]
    show splitLinesAux (rest ++ '\n' :: b) (c :: cur) =
      (cur.reverse ++ c :: rest) :: splitLinesAux b []
    rw [ih (fun d hd => h d (List.mem_cons_of_mem c hd)) b (c :: cur)]
    simp

/-- C7: for a custom transaction whose amount parses, the emitted entry's
counterparty and detail come from splitting the description on line breaks:
the first line (or the custom-transaction label when it is empty) is the
counterparty, the remaining lines joined by single spaces (or the no-details
label when empty) are the detail; `"Alice\nmonthly fee\nvia card"` yields
counterparty `"Alice"` and detail `"monthly fee via card"`. -/
theorem C7_description_split :
    (∀ (acc : Totais) (t : TransacaoRow) (v : ℚ), parseFloatQ t.valor.data = some v →
      (stepCustom acc t).transacoes = acc.transacoes ++ [mkCustomEntry t v] ∧
      (mkCustomEntry t v).cliente = (splitDescricao t.descricao).1 ∧
      (mkCustomEntry t v).detalheValor = (splitDescricao t.descricao).2) ∧
    (∀ (line1 rest : List Char), (∀ c ∈ line1, c ≠ '\n') →
      splitDescricao (String.mk (line1 ++ '\n' :: rest)) =
        ((if line1.isEmpty then "Transação customizada" else String.mk line1),
         (if (joinSpace (splitLinesAux rest [])).isEmpty then "Sem detalhes"
          else String.mk (joinSpace (splitLinesAux rest []))))) ∧
    splitDescricao "Alice\nmonthly fee\nvia card" = ("Alice", "monthly fee via card") ∧
    splitDescricao "" = ("Transação customizada", "Sem detalhes") ∧
    splitDescricao "Alice" = ("Alice", "Sem detalhes") := by
  refine ⟨?_, ?_, by decide, by decide, by decide⟩
  · intro acc t v h
    refine ⟨?_, rfl, rfl⟩
    unfold stepCustom
    rw [h]
    by_cases htipo : t.tipo = "entrada" <;> simp [htipo]
  · intro line1 rest h
    have hdata : (String.mk (line1 ++ '\n' :: rest)).data = line1 ++ '\n' :: rest := rfl
    simp only [splitDescricao, splitLines, hdata,
      splitLinesAux_split_at_newline line1 h rest []]
    simp

/-- Closed witness for C7: a concrete custom row and a concrete two-line
description. -/
theorem C7_description_split_witness :
    (stepCustom ⟨0, 0, []⟩ ⟨"t1", "2", "entrada", "Alice\nfee", ⟨2026, 1, 7, 0, 0, 0⟩⟩).transacoes =
      (⟨0, 0, []⟩ : Totais).transacoes ++
        [mkCustomEntry ⟨"t1", "2", "entrada", "Alice\nfee", ⟨2026, 1, 7, 0, 0, 0⟩⟩
          ((parseFloatQ ("2" : String).data).getD 0)] ∧
    splitDescricao (String.mk (['H', 'i'] ++ '\n' :: ['o', 'k'])) =
      ((if (['H', 'i'] : List Char).isEmpty then "Transação customizada"
        else String.mk ['H', 'i']),
       (if (joinSpace (splitLinesAux ['o', 'k'] [])).isEmpty then "Sem detalhes"
        else String.mk (joinSpace (splitLinesAux ['o', 'k'] [])))) :=
  ⟨(C7_description_split.1 ⟨0, 0, []⟩ ⟨"t1", "2", "entrada", "Alice\nfee", ⟨2026, 1, 7, 0, 0, 0⟩⟩
      ((parseFloatQ ("2" : String).data).getD 0) rfl).1,
    C7_description_split.2.1 ['H', 'i'] ['o', 'k'] (by decide)⟩

/-- C10: a custom transaction with a parseable amount and any direction value
other than `"entrada"` is counted as an outflow — the direction is not
validated — and the emitted entry carries the raw direction value. -/
theorem C10_direction_unvalidated :
    ∀ (acc : Totais) (t : TransacaoRow) (v : ℚ), parseFloatQ t.valor.data = some v →
      t.tipo ≠ "entrada" →
      (stepCustom acc t).saidas = acc.saidas + v ∧
      (stepCustom acc t).entradas = acc.entradas ∧
      (stepCustom acc t).transacoes = acc.transacoes ++ [mkCustomEntry t v] ∧
      (mkCustomEntry t v).tipo = t.tipo := by
  intro acc t v h htipo
  unfold stepCustom
  rw [h]
  simp [htipo, mkCustomEntry]

/-- Closed witness for C10: a row whose direction field is the junk string
`"garbage"` is counted as an outflow. -/
theorem C10_direction_unvalidated_witness :
    (stepCustom ⟨0, 0, []⟩ ⟨"t2", "3", "garbage", "d", ⟨2026, 1, 9, 0, 0, 0⟩⟩).saidas =
      (⟨0, 0, []⟩ : Totais).saidas + ((parseFloatQ ("3" : String).data).getD 0) ∧
    (stepCustom ⟨0, 0, []⟩ ⟨"t2", "3", "garbage", "d", ⟨2026, 1, 9, 0, 0, 0⟩⟩).entradas =
      (⟨0, 0, []⟩ : Totais).entradas ∧
    (stepCustom ⟨0, 0, []⟩ ⟨"t2", "3", "garbage", "d", ⟨2026, 1, 9, 0, 0, 0⟩⟩).transacoes =
      (⟨0, 0, []⟩ : Totais).transacoes ++
        [mkCustomEntry ⟨"t2", "3", "garbage", "d", ⟨2026, 1, 9, 0, 0, 0⟩⟩
          ((parseFloatQ ("3" : String).data).getD 0)] ∧
    (mkCustomEntry ⟨"t2", "3", "garbage", "d", ⟨2026, 1, 9, 0, 0, 0⟩⟩
        ((parseFloatQ ("3" : String).data).getD 0)).tipo =
      (⟨"t2", "3", "garbage", "d", ⟨2026, 1, 9, 0, 0, 0⟩⟩ : TransacaoRow).tipo :=
  C10_direction_unvalidated ⟨0, 0, []⟩ ⟨"t2", "3", "garbage", "d", ⟨2026, 1, 9, 0, 0, 0⟩⟩
    ((parseFloatQ ("3" : String).data).getD 0) rfl (by decide)

/-- C2 counterexample: with the first insert failing with code `PGRST205`,
provisioning succeeding, and the retried insert failing with a distinct store
error, the call surfaces the generic provisioning Error — not the retried
insert's error unchanged, which refutes the claim at this input. -/
theorem C2_counterexample_retry_error_replaced :
    (salvarTransacao (some "u")
        ⟨some ⟨"PGRST205", "relation missing"⟩, none, some ⟨"23505", "duplicate key"⟩⟩).result =
      Except.error (JSError.err "A tabela de transações não existe e não foi possível criá-la automaticamente. Contacte o suporte.") ∧
    JSError.err "A tabela de transações não existe e não foi possível criá-la automaticamente. Contacte o suporte." ≠
      JSError.supa ⟨"23505", "duplicate key"⟩ :=
  ⟨rfl, by decide⟩

/-- C2 amended: if provisioning succeeds and the retried insert fails, the
operation fails with the generic localized provisioning Error (the retried
insert's error is thrown inside the inner try and replaced by its catch), and
no reload runs. -/
theorem C2_retry_failure_generic_error :
    ∀ (u : String) (env : SalvarEnv) (e e2 : SupaError),
      env.firstInsert = some e → e.code = "PGRST205" → env.provision = none →
      env.retryInsert = some e2 →
      (salvarTransacao (some u) env).result =
        Except.error (JSError.err "A tabela de transações não existe e não foi possível criá-la automaticamente. Contacte o suporte.") ∧
      (salvarTransacao (some u) env).reloads = 0 := by
  intro u env e e2 h1 h2 h3 h4
  simp [salvarTransacao, h1, h2, h3, h4]

/-- Closed witness for the amended C2. -/
theorem C2_retry_failure_generic_error_witness :
    (salvarTransacao (some "u")
        ⟨some ⟨"PGRST205", "m"⟩, none, some ⟨"500", "boom"⟩⟩).result =
      Except.error (JSError.err "A tabela de transações não existe e não foi possível criá-la automaticamente. Contacte o suporte.") ∧
    (salvarTransacao (some "u")
        ⟨some ⟨"PGRST205", "m"⟩, none, some ⟨"500", "boom"⟩⟩).reloads = 0 :=
  C2_retry_failure_generic_error "u" ⟨some ⟨"PGRST205", "m"⟩, none, some ⟨"500", "boom"⟩⟩
    ⟨"PGRST205", "m"⟩ ⟨"500", "boom"⟩ rfl rfl rfl rfl

/-- C3 counterexample: when the update (resp. delete) call fails, no reload
runs — refuting the claim that the reload is unconditional regardless of the
store call's outcome. -/
theorem C3_counterexample_no_reload_on_failure :
    (editarTransacao (some ⟨"500", "update failed"⟩)).reloads = 0 ∧
    (excluirTransacao (some ⟨"500", "delete failed"⟩)).reloads = 0 :=
  ⟨rfl, rfl⟩

/-- C3 amended: edit and delete are single update-by-id / delete-by-id calls;
a full reload follows only when the store call succeeds; on failure the store
error is surfaced to the caller unchanged and no reload occurs. -/
theorem C3_reload_only_on_success :
    editarTransacao none = ⟨Except.ok (), 1⟩ ∧
    excluirTransacao none = ⟨Except.ok (), 1⟩ ∧
    (∀ e : SupaError, editarTransacao (some e) = ⟨Except.error (JSError.supa e), 0⟩) ∧
    (∀ e : SupaError, excluirTransacao (some e) = ⟨Except.error (JSError.supa e), 0⟩) :=
  ⟨rfl, rfl, fun _ => rfl, fun _ => rfl⟩

/-- C4: provisioning runs at most once and the insert at most twice on any
call; when the first insert fails with code `PGRST205` and provisioning
succeeds, exactly one provisioning call and exactly one retried insert occur —
independent of the retry's outcome, so a second `PGRST205` never re-provisions. -/
theorem C4_provision_at_most_once :
    (∀ (u : Option String) (env : SalvarEnv),
      (salvarTransacao u env).provisionCalls ≤ 1 ∧
      (salvarTransacao u env).insertAttempts ≤ 2) ∧
    (∀ (uid : String) (env : SalvarEnv) (e : SupaError),
      env.firstInsert = some e → e.code = "PGRST205" → env.provision = none →
      (salvarTransacao (some uid) env).provisionCalls = 1 ∧
      (salvarTransacao (some uid) env).insertAttempts = 2) := by
  constructor
  · intro u env
    cases u with
    | none => simp [salvarTransacao]
    | some uid =>
      cases h1 : env.firstInsert with
      | none => simp [salvarTransacao, h1]
      | some e =>
        by_cases h2 : e.code = "PGRST205"
        · cases h3 : env.provision with
          | none =>
            cases h4 : env.retryInsert with
            | none => simp [salvarTransacao, h1, h2, h3, h4]
            | some e2 => simp [salvarTransacao, h1, h2, h3, h4]
          | some pe => simp [salvarTransacao, h1, h2, h3]
        · simp [salvarTransacao, h1, h2]
  · intro uid env e h1 h2 h3
    cases h4 : env.retryInsert with
    | none => simp [salvarTransacao, h1, h2, h3, h4]
    | some e2 => simp [salvarTransacao, h1, h2, h3, h4]

/-- Closed witness for C4: first insert and retried insert both fail with
`PGRST205`; provisioning still runs exactly once and the insert exactly twice. -/
theorem C4_provision_at_most_once_witness :
    (salvarTransacao (some "u")
        ⟨some ⟨"PGRST205", "m1"⟩, none, some ⟨"PGRST205", "m2"⟩⟩).provisionCalls = 1 ∧
    (salvarTransacao (some "u")
        ⟨some ⟨"PGRST205", "m1"⟩, none, some ⟨"PGRST205", "m2"⟩⟩).insertAttempts = 2 :=
  C4_provision_at_most_once.2 "u"
    ⟨some ⟨"PGRST205", "m1"⟩, none, some ⟨"PGRST205", "m2"⟩⟩
    ⟨"PGRST205", "m1"⟩ rfl rfl rfl
